import Mathlib

/-!
Shallow embedding of the translation workflow (workflow.py) and the
language-model client (agents.py).  Python strings are modelled as
`List Char`; Python exceptions are modelled with `Except` / `Option`;
external services (the seq2seq model, the tokenizer, the crew engine,
the Gemini API) are modelled as explicit oracle parameters.
-/

/-- Python ASCII whitespace as used by `str.strip()`:
space, tab, newline, carriage return, vertical tab, form feed. -/
def isPySpace (c : Char) : Bool :=
  c = ' ' || c = '\t' || c = '\n' || c = '\r' || c = Char.ofNat 11 || c = Char.ofNat 12

/-- Python `s.strip()`: drop whitespace from both ends. -/
def pyStrip (s : List Char) : List Char :=
  ((s.dropWhile isPySpace).reverse.dropWhile isPySpace).reverse

/-- Split at the first occurrence of `sep`: `some (before, after)` where
`before ++ sep ++ after = s` and `sep` does not occur earlier, or `none`
when `sep` does not occur in `s`.  This is the primitive behind Python's
`sep in s` test and `s.split(sep)`. -/
def splitFirst (sep : List Char) : List Char → Option (List Char × List Char)
  | [] => if sep.isEmpty then some ([], []) else none
  | c :: rest =>
    if sep.isPrefixOf (c :: rest) then some ([], (c :: rest).drop sep.length)
    else (splitFirst sep rest).map (fun pq => (c :: pq.1, pq.2))

/-- Python `s.split(sep)[1]` (partial: defined when `sep` occurs in `s`):
the segment after the first occurrence of `sep`, ending at the second
occurrence of `sep` when there is one (Python splits at every
non-overlapping occurrence, so element 1 stops at occurrence 2). -/
def pySplitSnd (sep s : List Char) : Option (List Char) :=
  (splitFirst sep s).map (fun pq =>
    match splitFirst sep pq.2 with
    | some mid => mid.1
    | none => pq.2)

/-- Python `s.split(sep)[0]`: everything before the first occurrence of
`sep`, or all of `s` when `sep` does not occur. -/
def pySplitFst (sep s : List Char) : List Char :=
  match splitFirst sep s with
  | some pq => pq.1
  | none => s

/-- Marker `"SCORES:"` (workflow.py line 200). -/
def scoresMarker : List Char := "SCORES:".toList

/-- Marker `"ASSESSMENT:"` (workflow.py line 202). -/
def assessMarker : List Char := "ASSESSMENT:".toList

/-- Marker `"RECOMMENDATION:"` (workflow.py line 207). -/
def recMarker : List Char := "RECOMMENDATION:".toList

/-- Literal `"N/A"` (workflow.py line 197). -/
def naStr : List Char := "N/A".toList

/-- Success-path default for a missing context-task output (line 185). -/
def ctxNotAvailable : List Char := "Context analysis not available".toList

/-- Success-path default for a missing quality-task output (line 187). -/
def qaNotAvailable : List Char := "Quality assessment not available".toList

/-- Exception-path marker for `context_analysis` (line 192). -/
def crewFailCtx : List Char := "Multi-agent analysis failed".toList

/-- Exception-path prefix for `quality_assessment` (line 194):
`f"Quality assessment failed: {str(e)}"`. -/
def qaFailPre : List Char := "Quality assessment failed: ".toList

/-- workflow.py lines 197-205: `accuracy_score` starts as `"N/A"`; when
`"SCORES:" in quality_assessment`, it becomes
`quality_assessment.split("SCORES:")[1].split("ASSESSMENT:")[0].strip()`
(the inner `try` can never fire: both splits and the indexings are total
once the membership guard holds). -/
def extractAccuracy (qa : List Char) : List Char :=
  match pySplitSnd scoresMarker qa with
  | none => naStr
  | some seg => pyStrip (pySplitFst assessMarker seg)

/-- workflow.py lines 198-211: `final_recommendation` starts as
`refined_translation`; when `"RECOMMENDATION:" in quality_assessment`, it
becomes `quality_assessment.split("RECOMMENDATION:")[1].strip()`. -/
def extractRecommendation (qa refined : List Char) : List Char :=
  match pySplitSnd recMarker qa with
  | none => refined
  | some seg => pyStrip seg

/-- The three per-task outputs observed after `crew.kickoff()` returns:
`none` models a missing (`hasattr` false) or falsy `task.output`
attribute, `some s` a truthy output whose `str()` is `s`. -/
structure CrewOutputs where
  contextOut : Option (List Char)
  refineOut : Option (List Char)
  qualityOut : Option (List Char)

/-- Oracle for one `translate` call: the draft produced by
`_get_initial_translation` (step 1) and the outcome of building and
running the crew (steps 2-4): `.ok` with the task outputs, or `.error`
carrying `str(e)` of the raised exception. -/
structure TranslateEnv where
  draftResult : List Char
  crewOutcome : Except (List Char) CrewOutputs

/-- The `TranslationResult` TypedDict of workflow.py (all fields
strings). -/
structure TranslationResult where
  original_text : List Char
  source_lang : List Char
  target_lang : List Char
  initial_translation : List Char
  context_analysis : List Char
  refined_translation : List Char
  accuracy_score : List Char
  quality_assessment : List Char
  final_recommendation : List Char
deriving DecidableEq

/-- workflow.py lines 184-194: the `(context_analysis,
refined_translation, quality_assessment)` triple after the
`try`/`except` around crew construction and execution. -/
def crewFields (env : TranslateEnv) : List Char × List Char × List Char :=
  match env.crewOutcome with
  | .ok outs =>
    (outs.contextOut.getD ctxNotAvailable,
     outs.refineOut.getD env.draftResult,
     outs.qualityOut.getD qaNotAvailable)
  | .error e => (crewFailCtx, env.draftResult, qaFailPre ++ e)

/-- `TranslationWorkflow.translate` (workflow.py lines 86-223), with the
external effects abstracted into `env`. -/
def TranslationWorkflow.translate (env : TranslateEnv)
    (text source_lang target_lang : List Char) : TranslationResult :=
  let f := crewFields env
  { original_text := text
    source_lang := source_lang
    target_lang := target_lang
    initial_translation := env.draftResult
    context_analysis := f.1
    refined_translation := f.2.1
    accuracy_score := extractAccuracy f.2.2
    quality_assessment := f.2.2
    final_recommendation := extractRecommendation f.2.2 f.2.1 }

/-- Index of the first occurrence of `sep` in `s` (an independent,
position-based characterization used to state the parsing claims
without reference to `splitFirst`). -/
def findSub (sep : List Char) : List Char → Option Nat
  | [] => if sep.isEmpty then some 0 else none
  | c :: rest =>
    if sep.isPrefixOf (c :: rest) then some 0
    else (findSub sep rest).map (fun n => n + 1)

/-- Claim-side reading of the `accuracy_score` rule (C1, spec section
4.3 step 5): the trimmed substring strictly between the first
`"SCORES:"` and the next `"ASSESSMENT:"` after it when both are present,
else `"N/A"`.  Stated with `findSub`/`take`/`drop`, independently of the
`split`-chain in the code. -/
def specAccuracyClaim (qa : List Char) : List Char :=
  match findSub scoresMarker qa with
  | none => naStr
  | some i =>
    let rest := qa.drop (i + scoresMarker.length)
    match findSub assessMarker rest with
    | none => naStr
    | some j => pyStrip (rest.take j)

/-- Claim-side reading of the `final_recommendation` rule (C2, spec
section 4.3 step 5): the trimmed suffix of the text after the first
`"RECOMMENDATION:"` when present, else `refined`. -/
def specRecommendationClaim (qa refined : List Char) : List Char :=
  match findSub recMarker qa with
  | none => refined
  | some i => pyStrip (qa.drop (i + recMarker.length))

/-- Amended `accuracy_score` rule: when `"SCORES:"` occurs (first
occurrence at index `i`), take the text after it, truncated at the
next (non-overlapping) occurrence of `"SCORES:"` when there is one;
within that segment, drop everything from the first `"ASSESSMENT:"`
on; trim.  When `"SCORES:"` is absent, `"N/A"`. -/
def specAccuracyAmended (qa : List Char) : List Char :=
  match findSub scoresMarker qa with
  | none => naStr
  | some i =>
    let rest := qa.drop (i + scoresMarker.length)
    let seg := match findSub scoresMarker rest with
      | none => rest
      | some j => rest.take j
    let sec := match findSub assessMarker seg with
      | none => seg
      | some k => seg.take k
    pyStrip sec

/-- Amended `final_recommendation` rule: when `"RECOMMENDATION:"`
occurs, take the text after its first occurrence, truncated at the next
(non-overlapping) occurrence of the marker when there is one, trimmed;
when the marker is absent, `refined`. -/
def specRecommendationAmended (qa refined : List Char) : List Char :=
  match findSub recMarker qa with
  | none => refined
  | some i =>
    let rest := qa.drop (i + recMarker.length)
    pyStrip (match findSub recMarker rest with
      | none => rest
      | some j => rest.take j)

/-- Python `dict.get(k, dflt)` on an association list. -/
def dictGet (m : List (List Char × List Char)) (k dflt : List Char) : List Char :=
  match m with
  | [] => dflt
  | kv :: rest => if k = kv.1 then kv.2 else dictGet rest k dflt

/-- The `lang_mapping` dict of `_get_initial_translation`
(workflow.py lines 57-61): each supported code maps to itself. -/
def lang_mapping : List (List Char × List Char) :=
  [("en".toList, "en".toList), ("fr".toList, "fr".toList),
   ("es".toList, "es".toList), ("de".toList, "de".toList),
   ("it".toList, "it".toList), ("pt".toList, "pt".toList),
   ("ru".toList, "ru".toList), ("zh".toList, "zh".toList),
   ("ja".toList, "ja".toList), ("ko".toList, "ko".toList),
   ("ar".toList, "ar".toList), ("hi".toList, "hi".toList)]

/-- The allow-list of supported target codes: the keys of
`lang_mapping`. -/
def langKeys : List (List Char) := lang_mapping.map Prod.fst

/-- Literal `'fr'`, the hardcoded default target (workflow.py line 63). -/
def frDefault : List Char := "fr".toList

/-- workflow.py line 63: `mapped_target = lang_mapping.get(target_lang, 'fr')`. -/
def mappedTarget (target_lang : List Char) : List Char :=
  dictGet lang_mapping target_lang frDefault

/-- workflow.py lines 65-69, with `gid` the oracle for
`tokenizer.get_lang_id` (`none` models a raised exception).  Returns
`some (forcedBosId, warningEmitted)` when the assignment of
`forced_bos_token_id` completes, `none` when the exception escapes the
inner handler (the outer `except` then yields the
`"Translation failed: ..."` string).  The warning print sits after the
fallback lookup, so it runs only when the first lookup raised and the
`'fr'` lookup succeeded. -/
def resolveForcedBos (gid : List Char → Option Nat) (target_lang : List Char) :
    Option (Nat × Bool) :=
  match gid (mappedTarget target_lang) with
  | some i => some (i, false)
  | none =>
    match gid frDefault with
    | some i => some (i, true)
    | none => none

/-- The keyword arguments of the `self.model.generate` call
(workflow.py lines 72-78). -/
structure GenCall where
  forced_bos_token_id : Nat
  max_length : Nat
  num_beams : Nat
  early_stopping : Bool
  do_sample : Bool
deriving DecidableEq

/-- The generate call issued by `_get_initial_translation` for a given
tokenizer oracle and target language: `max_length=200`, `num_beams=4`,
`early_stopping=True`, `do_sample=False`, and the resolved forced BOS
id; `none` when the language-id lookups raised and no call is made. -/
def genCallOf (gid : List Char → Option Nat) (target_lang : List Char) :
    Option GenCall :=
  (resolveForcedBos gid target_lang).map (fun p => ⟨p.1, 200, 4, true, false⟩)

/-- A message-like record (Python dict) as the Gemini wrapper probes it:
optional `'content'` and `'text'` entries, plus its `str()` rendering. -/
structure MsgDict where
  content : Option (List Char)
  text : Option (List Char)
  asStr : List Char

/-- One element of a list-shaped prompt: a dict, a string, or something
else (skipped by the loop, which has no `else` branch for it). -/
inductive PromptItem where
  | dict (d : MsgDict)
  | str (s : List Char)
  | other

/-- The prompt shapes `GeminiLLM.call` distinguishes (agents.py lines
31-56): plain string, list of messages, single dict, or anything else
(carried as its `str()` rendering). -/
inductive PromptInput where
  | str (s : List Char)
  | list (msgs : List PromptItem)
  | dict (d : MsgDict)
  | other (s : List Char)

/-- Contribution of one list element (agents.py lines 37-44): dicts
yield `content` else `text` else nothing, strings are taken verbatim,
anything else adds nothing; each added piece is newline-terminated. -/
def normMsgItem : PromptItem → List Char
  | .dict d =>
    match d.content with
    | some c => c ++ ['\n']
    | none =>
      match d.text with
      | some t => t ++ ['\n']
      | none => []
  | .str s => s ++ ['\n']
  | .other => []

/-- Input normalization of `GeminiLLM.call` (agents.py lines 31-56). -/
def normalizePrompt : PromptInput → List Char
  | .str s => s
  | .list msgs => pyStrip (msgs.map normMsgItem).flatten
  | .dict d =>
    match d.content with
    | some c => c
    | none =>
      match d.text with
      | some t => t
      | none => d.asStr
  | .other s => s

/-- The fixed apology string returned on any caught exception
(agents.py line 65). -/
def apologyMsg : List Char :=
  ("I apologize, but I encountered an error while processing your request." ++
   " Please try again with a simpler prompt.").toList

/-- Literal `"No response generated"` (agents.py line 60). -/
def noResponseMsg : List Char := "No response generated".toList

/-- `GeminiLLM.call` (agents.py lines 27-65).  `gen` is the oracle for
`generate_content` followed by the `.text` access: `.error e` models any
raised exception (transport, generation, or blocked-response `.text`),
`.ok none` a `None` text field, `.ok (some t)` a returned text `t`
(possibly empty; Python's truthiness test sends `""` to the default). -/
def GeminiLLM.call
    (gen : List Char → Except (List Char) (Option (List Char)))
    (prompt : PromptInput) : List Char :=
  match gen (normalizePrompt prompt) with
  | .error _ => apologyMsg
  | .ok none => noResponseMsg
  | .ok (some t) => if t.isEmpty then noResponseMsg else t

/-- Loop body of `batch_translate` (workflow.py lines 227-231): the
oracle `envf` gives each position its own external outcome. -/
def batchTranslateAux (envf : Nat → TranslateEnv) (source_lang target_lang : List Char) :
    Nat → List (List Char) → List TranslationResult
  | _, [] => []
  | i, t :: ts =>
    TranslationWorkflow.translate (envf i) t source_lang target_lang ::
      batchTranslateAux envf source_lang target_lang (i + 1) ts

/-- `TranslationWorkflow.batch_translate` (workflow.py lines 225-232):
sequentially `translate` each text, appending results in order. -/
def TranslationWorkflow.batch_translate (envf : Nat → TranslateEnv)
    (texts : List (List Char)) (source_lang target_lang : List Char) :
    List TranslationResult :=
  batchTranslateAux envf source_lang target_lang 0 texts


/-- `splitFirst` is `findSub` with `take`/`drop`: the split point is the
first occurrence index. -/
theorem splitFirst_eq_findSub (sep s : List Char) :
    splitFirst sep s
      = (findSub sep s).map (fun i => (s.take i, s.drop (i + sep.length))) := by
  induction s with
  | nil =>
    simp only [splitFirst, findSub]
    by_cases h : sep.isEmpty <;> simp [h]
  | cons c rest ih =>
    simp only [splitFirst, findSub]
    by_cases h : sep.isPrefixOf (c :: rest)
    · simp [h]
    · simp only [h, if_false, ih]
      cases hf : findSub sep rest with
      | none => simp
      | some i =>
        have h2 : (c :: rest).drop (i + 1 + sep.length) = rest.drop (i + sep.length) := by
          have h3 : i + 1 + sep.length = (i + sep.length) + 1 := by omega
          rw [h3]; rfl
        simp [h2, List.take_succ_cons]

/-- The code's `accuracy_score` extraction agrees with the amended,
index-based statement. -/
theorem extractAccuracy_eq_amended (qa : List Char) :
    extractAccuracy qa = specAccuracyAmended qa := by
  simp only [extractAccuracy, specAccuracyAmended, pySplitSnd, pySplitFst,
    splitFirst_eq_findSub]
  cases h1 : findSub scoresMarker qa with
  | none => rfl
  | some i =>
    simp only [Option.map_some']
    cases h2 : findSub scoresMarker (qa.drop (i + scoresMarker.length)) with
    | none =>
      simp only [Option.map_none']
      cases h3 : findSub assessMarker (qa.drop (i + scoresMarker.length)) <;> simp
    | some j =>
      simp only [Option.map_some']
      cases h3 : findSub assessMarker ((qa.drop (i + scoresMarker.length)).take j) <;> simp

/-- The code's `final_recommendation` extraction agrees with the
amended, index-based statement. -/
theorem extractRecommendation_eq_amended (qa refined : List Char) :
    extractRecommendation qa refined = specRecommendationAmended qa refined := by
  simp only [extractRecommendation, specRecommendationAmended, pySplitSnd,
    splitFirst_eq_findSub]
  cases h1 : findSub recMarker qa with
  | none => rfl
  | some i =>
    simp only [Option.map_some']
    cases h2 : findSub recMarker (qa.drop (i + recMarker.length)) <;> simp

/-- Environment for the C1 counterexample: crew succeeds and the
quality task returns `"SCORES: 5"`, which contains `"SCORES:"` but no
`"ASSESSMENT:"`. -/
def c1Env : TranslateEnv :=
  ⟨"draft".toList,
   .ok ⟨some ("ctx".toList), some ("ref".toList), some ("SCORES: 5".toList)⟩⟩

/-- C1 counterexample: on quality text `"SCORES: 5"` (marker
`"ASSESSMENT:"` absent) the code sets `accuracy_score` to the trimmed
tail `"5"`, while the claim demands `"N/A"` whenever either marker is
absent. -/
theorem C1_counterexample :
    (TranslationWorkflow.translate c1Env ("t".toList) ("en".toList)
        ("fr".toList)).accuracy_score = "5".toList ∧
      specAccuracyClaim ("SCORES: 5".toList) = naStr ∧
      "5".toList ≠ naStr :=
  ⟨by decide, by decide, by decide⟩

/-- C1 (amended): for every environment and inputs, `accuracy_score` of
the result of `translate` equals the index-based amended rule applied to
the quality-assessment text: the trimmed text after the first
`"SCORES:"`, truncated at the next `"SCORES:"` occurrence when present,
with everything from the first `"ASSESSMENT:"` in that segment dropped;
`"N/A"` only when `"SCORES:"` is absent. -/
theorem C1_amended_accuracy (env : TranslateEnv) (text src tgt : List Char) :
    (TranslationWorkflow.translate env text src tgt).accuracy_score
      = specAccuracyAmended (crewFields env).2.2 :=
  extractAccuracy_eq_amended (crewFields env).2.2

/-- Environment for the C2 counterexample: the quality text contains
`"RECOMMENDATION:"` twice. -/
def c2Env : TranslateEnv :=
  ⟨"draft".toList,
   .ok ⟨some ("ctx".toList), some ("ref".toList),
        some ("RECOMMENDATION:aRECOMMENDATION:b".toList)⟩⟩

/-- C2 counterexample: on quality text `"RECOMMENDATION:aRECOMMENDATION:b"`
the code sets `final_recommendation` to `"a"` (Python `split(sep)[1]`
stops at the second occurrence of the separator), while the claim's
trimmed suffix after the marker is `"aRECOMMENDATION:b"`. -/
theorem C2_counterexample :
    (TranslationWorkflow.translate c2Env ("t".toList) ("en".toList)
        ("fr".toList)).final_recommendation = "a".toList ∧
      specRecommendationClaim ("RECOMMENDATION:aRECOMMENDATION:b".toList)
          ("ref".toList) = "aRECOMMENDATION:b".toList ∧
      "a".toList ≠ "aRECOMMENDATION:b".toList :=
  ⟨by decide, by decide, by decide⟩

/-- C2 (amended): for every environment and inputs,
`final_recommendation` equals the index-based amended rule: when
`"RECOMMENDATION:"` occurs in the quality text, the trimmed text after
its first occurrence truncated at the next occurrence when there is
one; otherwise the refined translation. -/
theorem C2_amended_recommendation (env : TranslateEnv) (text src tgt : List Char) :
    (TranslationWorkflow.translate env text src tgt).final_recommendation
      = specRecommendationAmended (crewFields env).2.2 (crewFields env).2.1 :=
  extractRecommendation_eq_amended (crewFields env).2.2 (crewFields env).2.1

/-- C3: whenever the crew stage raises (outcome `.error e`), the result
of `translate` has `refined_translation` equal to the initial
translation, `context_analysis` equal to the fixed marker
`"Multi-agent analysis failed"`, and `quality_assessment` equal to
`"Quality assessment failed: "` followed by the exception text; the
function is total, so no exception escapes. -/
theorem C3_crew_exception_fallback (d e text src tgt : List Char) :
    (TranslationWorkflow.translate ⟨d, .error e⟩ text src tgt).refined_translation = d ∧
      (TranslationWorkflow.translate ⟨d, .error e⟩ text src tgt).initial_translation = d ∧
      (TranslationWorkflow.translate ⟨d, .error e⟩ text src tgt).context_analysis
        = crewFailCtx ∧
      (TranslationWorkflow.translate ⟨d, .error e⟩ text src tgt).quality_assessment
        = qaFailPre ++ e :=
  ⟨rfl, rfl, rfl, rfl⟩

/-- C4: `translate` returns `original_text`, `source_lang` and
`target_lang` exactly equal to its arguments, for every environment. -/
theorem C4_identity_passthrough (env : TranslateEnv) (text src tgt : List Char) :
    (TranslationWorkflow.translate env text src tgt).original_text = text ∧
      (TranslationWorkflow.translate env text src tgt).source_lang = src ∧
      (TranslationWorkflow.translate env text src tgt).target_lang = tgt :=
  ⟨rfl, rfl, rfl⟩

/-- Length of the batch loop is the length of the input list. -/
theorem batchTranslateAux_length (envf : Nat → TranslateEnv)
    (src tgt : List Char) (n : Nat) (ts : List (List Char)) :
    (batchTranslateAux envf src tgt n ts).length = ts.length := by
  induction ts generalizing n with
  | nil => rfl
  | cons t ts ih => simp [batchTranslateAux, ih]

/-- The batch loop maps position `i` (counting from start index `n`) to
`translate` of the `i`-th text. -/
theorem batchTranslateAux_getElem (envf : Nat → TranslateEnv)
    (src tgt : List Char) (n i : Nat) (ts : List (List Char)) :
    (batchTranslateAux envf src tgt n ts)[i]?
      = (ts[i]?).map
          (fun t => TranslationWorkflow.translate (envf (n + i)) t src tgt) := by
  induction ts generalizing n i with
  | nil => simp [batchTranslateAux]
  | cons t ts ih =>
    cases i with
    | zero => simp [batchTranslateAux]
    | succ k =>
      have ha : n + 1 + k = n + (k + 1) := by omega
      simp [batchTranslateAux, ih, ha]

/-- C5: `batch_translate` returns a list of exactly the input length
whose `i`-th element is `translate` applied to the `i`-th text (with
that call's own external outcome `envf i`), in input order; the
function is total, so every item is always processed. -/
theorem C5_batch_order (envf : Nat → TranslateEnv) (texts : List (List Char))
    (src tgt : List Char) :
    (TranslationWorkflow.batch_translate envf texts src tgt).length = texts.length ∧
      ∀ i : Nat,
        (TranslationWorkflow.batch_translate envf texts src tgt)[i]?
          = (texts[i]?).map
              (fun t => TranslationWorkflow.translate (envf i) t src tgt) := by
  refine ⟨batchTranslateAux_length envf src tgt 0 texts, fun i => ?_⟩
  simpa using batchTranslateAux_getElem envf src tgt 0 i texts

/-- When the key is not among the keys of the association list,
`dictGet` yields the default. -/
theorem dictGet_of_not_mem_keys (m : List (List Char × List Char))
    (k d : List Char) (h : k ∉ m.map Prod.fst) : dictGet m k d = d := by
  induction m with
  | nil => rfl
  | cons kv rest ih =>
    simp only [List.map_cons, List.mem_cons, not_or] at h
    simp [dictGet, h.1, ih h.2]

/-- Keys of the identity dict map to themselves. -/
theorem mappedTarget_of_mem (t : List Char) (h : t ∈ langKeys) :
    mappedTarget t = t := by
  simp only [langKeys, lang_mapping, List.map_cons, List.map_nil,
    List.mem_cons, List.not_mem_nil, or_false] at h
  rcases h with rfl | rfl | rfl | rfl | rfl | rfl | rfl | rfl | rfl | rfl | rfl | rfl <;>
    decide

/-- Tokenizer oracle for the C6 counterexample and witness: every
lookup succeeds (as with the real M2M100 tokenizer, whose
`get_lang_id` succeeds on all mapped codes, in particular on `'fr'`). -/
def c6Gid : List Char → Option Nat := fun _ => some 5

/-- C6 counterexample: `"xx"` is outside the allow-list; the code does
resolve it to `'fr'`, but the warning flag is `false` — the warning
print is guarded by `get_lang_id` raising, not by allow-list
membership, so the claimed warning signal is not emitted. -/
theorem C6_counterexample :
    ("xx".toList ∉ langKeys) ∧
      mappedTarget ("xx".toList) = frDefault ∧
      (resolveForcedBos c6Gid ("xx".toList)).map Prod.snd = some false :=
  ⟨by decide, by decide, by decide⟩

/-- C6 (amended): every unsupported target resolves to the default
`'fr'`, and no warning is ever emitted for it under any tokenizer
behavior: either the `'fr'` lookup succeeds on the first attempt
(warning flag `false`), or it raises and the call aborts without
reaching the warning print. -/
theorem C6_amended_unsupported_target (gid : List Char → Option Nat)
    (t : List Char) (h : t ∉ langKeys) :
    mappedTarget t = frDefault ∧
      (resolveForcedBos gid t).map Prod.snd ≠ some true := by
  have hm : mappedTarget t = frDefault := dictGet_of_not_mem_keys lang_mapping t frDefault h
  refine ⟨hm, ?_⟩
  cases hf : gid frDefault <;> simp [resolveForcedBos, hm, hf]

/-- Witness for C6 (amended) at the concrete unsupported target
`"xx"` and a total tokenizer oracle. -/
theorem C6_amended_witness :
    ("xx".toList ∉ langKeys) ∧
      (mappedTarget ("xx".toList) = frDefault ∧
        (resolveForcedBos c6Gid ("xx".toList)).map Prod.snd ≠ some true) :=
  ⟨by decide, C6_amended_unsupported_target c6Gid ("xx".toList) (by decide)⟩

/-- C7: whenever the generation oracle raises on the normalized prompt,
`GeminiLLM.call` returns the fixed apology string; the embedding is a
total function, so the call never raises. -/
theorem C7_apology_on_error
    (gen : List Char → Except (List Char) (Option (List Char)))
    (p : PromptInput) (e : List Char)
    (h : gen (normalizePrompt p) = .error e) :
    GeminiLLM.call gen p = apologyMsg := by
  simp [GeminiLLM.call, h]

/-- Generation oracle for the C7 witness: always raises. -/
def c7Gen : List Char → Except (List Char) (Option (List Char)) :=
  fun _ => .error ("boom".toList)

/-- Witness for C7 at a concrete failing oracle and string prompt. -/
theorem C7_witness :
    c7Gen (normalizePrompt (PromptInput.str ("hi".toList)))
        = .error ("boom".toList) ∧
      GeminiLLM.call c7Gen (PromptInput.str ("hi".toList)) = apologyMsg :=
  ⟨rfl, C7_apology_on_error c7Gen (PromptInput.str ("hi".toList)) ("boom".toList) rfl⟩

/-- Tokenizer oracle for the C8 witness: every lookup succeeds with
id 7. -/
def c8Gid : List Char → Option Nat := fun _ => some 7

/-- C8: for every target in the allow-list whose tokenizer lookup
succeeds with id `i`, the generate call is issued with
`forced_bos_token_id = i`, `max_length = 200`, `num_beams = 4`,
`early_stopping = True`, `do_sample = False`. -/
theorem C8_generate_call (gid : List Char → Option Nat) (t : List Char)
    (i : Nat) (h1 : t ∈ langKeys) (h2 : gid t = some i) :
    genCallOf gid t = some ⟨i, 200, 4, true, false⟩ := by
  have hm := mappedTarget_of_mem t h1
  simp [genCallOf, resolveForcedBos, hm, h2]

/-- Witness for C8 at the concrete supported target `"de"`. -/
theorem C8_witness :
    (("de".toList ∈ langKeys) ∧ c8Gid ("de".toList) = some 7) ∧
      genCallOf c8Gid ("de".toList) = some ⟨7, 200, 4, true, false⟩ :=
  ⟨⟨by decide, rfl⟩, C8_generate_call c8Gid ("de".toList) 7 (by decide) rfl⟩

/-- C9: on the successful crew path, each missing-or-falsy task output
is replaced by its per-field default: `"Context analysis not available"`
for the context task, the initial translation for the refinement task,
`"Quality assessment not available"` for the quality task. -/
theorem C9_success_path_defaults (d : List Char) (outs : CrewOutputs)
    (text src tgt : List Char) :
    (outs.contextOut = none →
        (TranslationWorkflow.translate ⟨d, .ok outs⟩ text src tgt).context_analysis
          = ctxNotAvailable) ∧
      (outs.refineOut = none →
        (TranslationWorkflow.translate ⟨d, .ok outs⟩ text src tgt).refined_translation
          = d) ∧
      (outs.qualityOut = none →
        (TranslationWorkflow.translate ⟨d, .ok outs⟩ text src tgt).quality_assessment
          = qaNotAvailable) := by
  refine ⟨fun h => ?_, fun h => ?_, fun h => ?_⟩ <;>
    simp [TranslationWorkflow.translate, crewFields, h]

/-- Crew outputs for the C9 witness: all three task outputs missing. -/
def c9Outs : CrewOutputs := ⟨none, none, none⟩

/-- Witness for C9 at a concrete environment with all outputs missing. -/
theorem C9_witness :
    (TranslationWorkflow.translate ⟨"draft".toList, .ok c9Outs⟩ ("t".toList)
        ("en".toList) ("fr".toList)).context_analysis = ctxNotAvailable ∧
      (TranslationWorkflow.translate ⟨"draft".toList, .ok c9Outs⟩ ("t".toList)
        ("en".toList) ("fr".toList)).refined_translation = "draft".toList ∧
      (TranslationWorkflow.translate ⟨"draft".toList, .ok c9Outs⟩ ("t".toList)
        ("en".toList) ("fr".toList)).quality_assessment = qaNotAvailable :=
  ⟨(C9_success_path_defaults ("draft".toList) c9Outs ("t".toList) ("en".toList)
      ("fr".toList)).1 rfl,
   (C9_success_path_defaults ("draft".toList) c9Outs ("t".toList) ("en".toList)
      ("fr".toList)).2.1 rfl,
   (C9_success_path_defaults ("draft".toList) c9Outs ("t".toList) ("en".toList)
      ("fr".toList)).2.2 rfl⟩

/-- C10: when the generation succeeds but the text field is missing
(`None`) or empty (`""`), `GeminiLLM.call` returns the literal
`"No response generated"`, which is not the apology string. -/
theorem C10_empty_response
    (gen : List Char → Except (List Char) (Option (List Char)))
    (p : PromptInput)
    (h : gen (normalizePrompt p) = .ok none ∨
      gen (normalizePrompt p) = .ok (some [])) :
    GeminiLLM.call gen p = noResponseMsg ∧
      GeminiLLM.call gen p ≠ apologyMsg := by
  have h1 : GeminiLLM.call gen p = noResponseMsg := by
    rcases h with h | h <;> simp [GeminiLLM.call, h]
  refine ⟨h1, ?_⟩
  rw [h1]
  decide

/-- Generation oracle for the C10 witness: succeeds with a missing
text field. -/
def c10Gen : List Char → Except (List Char) (Option (List Char)) :=
  fun _ => .ok none

/-- Witness for C10 at a concrete empty-response oracle and prompt. -/
theorem C10_witness :
    (c10Gen (normalizePrompt (PromptInput.str ("q".toList))) = .ok none ∨
        c10Gen (normalizePrompt (PromptInput.str ("q".toList))) = .ok (some [])) ∧
      (GeminiLLM.call c10Gen (PromptInput.str ("q".toList)) = noResponseMsg ∧
        GeminiLLM.call c10Gen (PromptInput.str ("q".toList)) ≠ apologyMsg) :=
  ⟨Or.inl rfl, C10_empty_response c10Gen (PromptInput.str ("q".toList)) (Or.inl rfl)⟩
